import Mathlib

/-
Verification of dialogue_generator.py (dialogue-dataset-generator).

Shallow embedding: the Python module is translated into pure Lean
definitions.  External effects (the language model, the Oracle database,
the JSON files on disk) are modelled explicitly:
  * the checkpoint file's content is a `FileState` value threaded through
    the loop;
  * the database-connection config file's content is a `JsonLoad` value;
  * the external model and the database are fields of an `Env` record
    (deterministic oracles);
  * Python exceptions are `Except PyExn`.
-/

set_option maxRecDepth 8192

/-! ## Pydantic data model (lines 9-23 of dialogue_generator.py) -/

structure GroundTruth where
  tables_from_schema_linking : List String
  golden_sql : String
deriving DecidableEq, Repr

structure Interaction where
  interaction_id : String
  speaker : String
  utterance : String
  intention : String
  ground_truths : GroundTruth
deriving DecidableEq, Repr

structure Experiment where
  experiment_id : String
  total_expected_interactions : Int
  interactions : List Interaction
deriving DecidableEq, Repr

/-! ## Python exceptions that the module can raise or swallow -/

inductive PyExn where
  | ioError (msg : String)
  | jsonDecodeError (msg : String)
  | keyError (key : String)
  | attributeError (msg : String)
  | formatError (msg : String)
deriving DecidableEq, Repr

/-- Content of a JSON file as seen by `open` + `json.load`: opening can
raise an OS error, decoding can raise `json.JSONDecodeError`, or a JSON
object (modelled as an association list of string entries) is produced. -/
inductive JsonLoad where
  | openError (msg : String)
  | decodeError (msg : String)
  | obj (entries : List (String × String))
deriving DecidableEq, Repr

/-- The five connection settings read at lines 147-151. -/
structure DbConfig where
  db_host : String
  db_port : String
  db_user : String
  db_pass : String
  service_name : String
deriving DecidableEq, Repr

/-- Lines 144-151: `json.load` on the connection-settings file followed by
the five subscript accesses; a missing key raises `KeyError`.  This happens
BEFORE the `try` block at line 157, so every failure propagates. -/
def loadDbConfig : JsonLoad → Except PyExn DbConfig
  | .openError m => .error (.ioError m)
  | .decodeError m => .error (.jsonDecodeError m)
  | .obj es =>
    match es.lookup "DB_HOST" with
    | none => .error (.keyError "DB_HOST")
    | some h =>
      match es.lookup "DB_PORT" with
      | none => .error (.keyError "DB_PORT")
      | some p =>
        match es.lookup "DB_USER_NAME" with
        | none => .error (.keyError "DB_USER_NAME")
        | some u =>
          match es.lookup "DB_PASS" with
          | none => .error (.keyError "DB_PASS")
          | some pw =>
            match es.lookup "SERVICE_NAME" with
            | none => .error (.keyError "SERVICE_NAME")
            | some sn => .ok ⟨h, p, u, pw, sn⟩

/-- Line 153: `dsn = f"{db_host}:{db_port}/{service_name}"`. -/
def dsnOf (c : DbConfig) : String :=
  c.db_host ++ ":" ++ c.db_port ++ "/" ++ c.service_name

/-! ## Example values passed to the Prompt Builder (lines 75-83)

A Python value stored in `table_column_values_hashmap` is either a list of
items or a single item; an item either exposes `isoformat` (a
datetime-like object, whose `str()` form we carry) or is a plain
JSON-serializable value. -/

inductive PyItem where
  | dt (strForm : String)
  | raw (v : String)
deriving DecidableEq, Repr

inductive PyVal where
  | list (xs : List PyItem)
  | single (x : PyItem)
deriving DecidableEq, Repr

/-- Line 79/81: `str(item) if hasattr(item, 'isoformat') else item`. -/
def processItem : PyItem → PyItem
  | .dt s => .raw s
  | .raw v => .raw v

/-- Lines 77-81: the datetime-to-string conversion over one value. -/
def processVal : PyVal → PyVal
  | .list xs => .list (xs.map processItem)
  | .single x => .single (processItem x)

/-- The static prompt template (read once at construction, line 41).
`str.format` either substitutes the five named placeholders or raises a
formatting error when the template text is malformed. -/
inductive Template where
  | wellFormed (render : String → String → Nat → String → String → String)
  | malformed (msg : String)

/-- One input combination: `{"combination_str": ..., "tables": [...]}`. -/
structure Combination where
  combination_str : String
  tables : List String
deriving DecidableEq, Repr

/-! ## The environment: constructor state plus external oracles -/

structure Env where
  /-- `self.dialogue_generator.invoke` — the external model. -/
  gen : String → Experiment
  /-- `json.dumps(..., indent=2, ensure_ascii=False)` on a processed
  example dict — external library serialization. -/
  dumps : List (String × PyVal) → String
  /-- `self.table_ddls_hashmap` -/
  table_ddls : String → Option String
  /-- `self.table_column_values_hashmap` -/
  table_column_values : String → Option (List (String × PyVal))
  /-- `self.dialogue_generation_prompt` with `.format` applied. -/
  template : Template
  /-- content of the file at `self.database_connection`. -/
  configJson : JsonLoad
  /-- `oracledb.connect(user=..., password=..., dsn=...)`: succeeds or
  raises, carrying `str(e)`. -/
  connect : String → String → String → Except String Unit
  /-- `cursor.execute(sql)` followed by `cursor.fetchall()`: succeeds or
  raises, carrying `str(e)`. -/
  exec : String → Except String Unit

/-! ## Validator: check_dialogue_sintax (lines 131-196) -/

/-- Python `str.strip()` whitespace set (ASCII part). -/
def isPySpace (c : Char) : Bool :=
  c == ' ' || c == '\t' || c == '\n' || c == '\r' || c == '\x0b' || c == '\x0c'

/-- `s.strip()` on the character list. -/
def pyStrip (l : List Char) : List Char :=
  ((l.dropWhile isPySpace).reverse.dropWhile isPySpace).reverse

/-- `s.rstrip(';')` on the character list: removes EVERY trailing
semicolon, not just one. -/
def rstripSemis (l : List Char) : List Char :=
  (l.reverse.dropWhile (fun c => c == ';')).reverse

/-- Line 171: `sql = sql.strip().rstrip(';')`. -/
def stripSql (s : String) : String :=
  String.mk (rstripSemis (pyStrip s.toList))

/-- Modelled from the spec: "strip the SQL, remove a single trailing
statement terminator if present".  This follows the spec's words (one
terminator removed at most) and is compared with `stripSql`, which embeds
the source's `rstrip(';')`. -/
def stripSqlOneTerminator (s : String) : String :=
  let t := pyStrip s.toList
  String.mk (if t.getLast? == some ';' then t.dropLast else t)

/-- Lines 167-179: one interaction's execution attempt; on failure the
collected error line (line 177). -/
def interactionError (env : Env) (it : Interaction) : Option String :=
  match env.exec (stripSql it.ground_truths.golden_sql) with
  | .ok _ => none
  | .error e =>
    some ("Interaction " ++ it.interaction_id ++ ", SQL: \x27" ++
      stripSql it.ground_truths.golden_sql ++ "\x27 - Error: " ++ e)

/-- The `sql_errors` list after the loop at lines 167-179: one entry per
failing interaction, in interaction order; a failure never stops the
remaining interactions from being checked. -/
def sqlErrors (env : Env) (d : Experiment) : List String :=
  d.interactions.filterMap (interactionError env)

/-- Line 187. -/
def feedbackPreamble : String :=
  "\n\n# Feedback: \nThe groundtruths SQLs that you generated gave me the following errors, try again but attention to the errors:\n"

/-- Line 189. -/
def feedbackTrailer : String :=
  "\nDo it again fixing it please and you can maintain the same structure of everything except wrong SQLs."

/-- Lines 131-196: `check_dialogue_sintax`.  Config loading (lines
144-151) sits before the `try`, so its failures are raised (`Except.error`).
A connection failure is caught by the outer `except` and reported as an
invalid result.  Per-statement failures are collected into `sql_errors`. -/
def check_dialogue_sintax (env : Env) (d : Experiment) : Except PyExn (Bool × String) :=
  match loadDbConfig env.configJson with
  | .error e => .error e
  | .ok cfg =>
    match env.connect cfg.db_user cfg.db_pass (dsnOf cfg) with
    | .error e => .ok (false, "Error connecting to the database: " ++ e)
    | .ok _ =>
      let errs := sqlErrors env d
      if errs.isEmpty then .ok (true, "")
      else .ok (false, feedbackPreamble ++ String.intercalate "\n" errs ++ feedbackTrailer)

/-! ## Checkpoint store (lines 198-272) -/

/-- One element of the `dataset` array on disk, as far as the module ever
inspects it: `experiment.get("experiment_id")` (absent key gives `none`),
plus the full experiment when the entry was written by `model_dump`. -/
structure DatasetEntry where
  eid : Option String
  body : Option Experiment
deriving DecidableEq, Repr

/-- Content of the output JSON file. -/
inductive FileState where
  | missing
  | invalidJson
  | noDatasetKey
  | withDataset (entries : List DatasetEntry)
deriving DecidableEq, Repr

/-- Lines 198-228: `dialogue_exists_in_dataset`. -/
def dialogue_exists_in_dataset (experiment_id : String) (f : FileState) : Bool :=
  match f with
  | .missing => false
  | .invalidJson => false
  | .noDatasetKey => false
  | .withDataset entries => entries.any (fun en => en.eid == some experiment_id)

/-- `dialogue.model_dump()` appended to the `dataset` array (line 264). -/
def expEntry (d : Experiment) : DatasetEntry :=
  ⟨some d.experiment_id, some d⟩

/-- Lines 230-272: `save_dialogue_to_file`.  A missing file, invalid JSON
or a document without the `dataset` key is replaced by `{"dataset": []}`
before appending; otherwise the experiment is appended to the existing
array and the whole file rewritten.  (The I/O itself is modelled as
succeeding; the source additionally swallows write errors with a log
line.) -/
def save_dialogue_to_file (d : Experiment) (f : FileState) : FileState :=
  match f with
  | .missing => .withDataset [expEntry d]
  | .invalidJson => .withDataset [expEntry d]
  | .noDatasetKey => .withDataset [expEntry d]
  | .withDataset entries => .withDataset (entries ++ [expEntry d])

/-- Number of experiments in the file sharing the given experiment_id. -/
def countId (e : String) (f : FileState) : Nat :=
  match f with
  | .withDataset entries => (entries.filter (fun en => en.eid == some e)).length
  | _ => 0

/-! ## Prompt Builder: create_prompt_from_join_combination_data (lines 44-95) -/

/-- Lines 71-85, one iteration: the DDL lookup falls back to a
placeholder string, but the column-values lookup's fallback is the STRING
"Column values examples not found", on which line 77 then calls
`.items()` — a Python `AttributeError` is raised for any table absent from
`table_column_values_hashmap`. -/
def tableBlock (env : Env) (table : String) : Except PyExn String :=
  let ddl_text := (env.table_ddls table).getD "DDL not found"
  match env.table_column_values table with
  | none => .error (.attributeError "str object has no attribute items")
  | some column_values_examples =>
    let processed_examples := column_values_examples.map (fun kv => (kv.1, processVal kv.2))
    let examples_str := env.dumps processed_examples
    .ok ("Table: " ++ table ++ "\nDDL:\n" ++ ddl_text ++
      "\nColumn values examples:\n" ++ examples_str ++ "\n")

/-- The `tables_context` accumulation over lines 71-85. -/
def buildTablesContext (env : Env) : List String → Except PyExn String
  | [] => .ok ""
  | t :: ts =>
    match tableBlock env t with
    | .error e => .error e
    | .ok b =>
      match buildTablesContext env ts with
      | .error e => .error e
      | .ok rest => .ok (b ++ rest)

/-- Lines 44-95: `create_prompt_from_join_combination_data`. -/
def create_prompt_from_join_combination_data (env : Env) (i : Nat) (jc : Combination) :
    Except PyExn String :=
  let experiment_id := toString (i + 1)
  let join_str := jc.combination_str
  let tables_involved := jc.tables
  let joins_len := tables_involved.eraseDups.length
  match buildTablesContext env tables_involved with
  | .error e => .error e
  | .ok tables_context =>
    match env.template with
    | .malformed m => .error (.formatError m)
    | .wellFormed render =>
      .ok (render experiment_id join_str joins_len tables_context
        (String.intercalate ", " tables_involved))

/-! ## Generator Loop: create_dialogue_dataset (lines 97-129) -/

/-- Line 97-98: `generate_dialogue` — one external model invocation. -/
def generate_dialogue (env : Env) (prompt : String) : Experiment :=
  env.gen prompt

/-- Lines 116-123: the retry `while` loop, with `fuel = 3 - retries`
remaining iterations.  Besides the loop's result (final dialogue and final
`is_valid`) the number of model invocations made inside the loop is
returned, in error outcomes too. -/
def retryLoop (env : Env) (prompt : String) :
    Nat → Experiment → Bool → String → (Except PyExn (Experiment × Bool)) × Nat
  | 0, d, v, _ => (.ok (d, v), 0)
  | fuel + 1, d, v, fb =>
    if v then (.ok (d, v), 0)
    else
      let d2 := generate_dialogue env (prompt ++ fb)
      match check_dialogue_sintax env d2 with
      | .error e => (.error e, 1)
      | .ok (v2, fb2) =>
        match retryLoop env prompt fuel d2 v2 fb2 with
        | (r, n) => (r, n + 1)

/-- Lines 103-128, the body for one combination at index `i` against the
current checkpoint-file state `fs`.  The first component is the outcome
(`none` when the combination was skipped via the checkpoint, otherwise the
final candidate with its final validity, plus the resulting file state);
the second counts model invocations for this combination. -/
def processCombination (env : Env) (fs : FileState) (i : Nat) (jc : Combination) :
    (Except PyExn (Option (Experiment × Bool) × FileState)) × Nat :=
  if dialogue_exists_in_dataset (toString (i + 1)) fs then (.ok (none, fs), 0)
  else
    match create_prompt_from_join_combination_data env i jc with
    | .error e => (.error e, 0)
    | .ok prompt =>
      let dialogue := generate_dialogue env prompt
      match check_dialogue_sintax env dialogue with
      | .error e => (.error e, 1)
      | .ok (is_valid, feedback) =>
        match retryLoop env prompt 3 dialogue is_valid feedback with
        | (.error e, n) => (.error e, n + 1)
        | (.ok (dF, vF), n) =>
          ((.ok (some (dF, vF), if vF then save_dialogue_to_file dF fs else fs)), n + 1)

/-- Record of one loop iteration, for stating run-level properties. -/
structure StepTrace where
  idx : Nat
  combo : Combination
  fsBefore : FileState
  fsAfter : FileState
  calls : Nat
  result : Option (Experiment × Bool)
deriving DecidableEq, Repr

/-- `dialogues.append(dialogue)` happens for every non-skipped
combination regardless of final validity (line 128). -/
def appendResult (od : Option (Experiment × Bool)) (ds : List Experiment) : List Experiment :=
  match od with
  | some (d, _) => d :: ds
  | none => ds

/-- Lines 100-129 over the remaining combinations, starting at index `i`
with file state `fs`; produces the in-memory dialogue list, the final
file state and the per-combination trace.  An uncaught exception aborts
the whole run. -/
def runAux (env : Env) : Nat → List Combination → FileState →
    Except PyExn (List Experiment × FileState × List StepTrace)
  | _, [], fs => .ok ([], fs, [])
  | i, jc :: rest, fs =>
    match processCombination env fs i jc with
    | (.error e, _) => .error e
    | (.ok (od, fs2), n) =>
      match runAux env (i + 1) rest fs2 with
      | .error e => .error e
      | .ok (ds, fsF, tr) =>
        .ok (appendResult od ds, fsF, ⟨i, jc, fs, fs2, n, od⟩ :: tr)

/-- Lines 100-129: `create_dialogue_dataset`, returning the in-memory
list and the final checkpoint-file state. -/
def create_dialogue_dataset (env : Env) (combos : List Combination) (fs : FileState) :
    Except PyExn (List Experiment × FileState) :=
  match runAux env 0 combos fs with
  | .error e => .error e
  | .ok (ds, fsF, _) => .ok (ds, fsF)

deriving instance DecidableEq for Except

/-! ## Helper lemmas -/

theorem head_dropWhile_false {α : Type} (p : α → Bool) :
    ∀ (l : List α) (a : α), (l.dropWhile p).head? = some a → p a = false := by
  intro l
  induction l with
  | nil => intro a h; simp [List.dropWhile] at h
  | cons x xs ih =>
    intro a h
    by_cases hx : p x
    · rw [List.dropWhile_cons_of_pos hx] at h
      exact ih a h
    · rw [List.dropWhile_cons_of_neg hx] at h
      simp at h
      . rw [← h]; exact Bool.of_not_eq_true hx

theorem rstripSemis_spec (l : List Char) :
    rstripSemis l ++ List.replicate (l.reverse.takeWhile (fun c => c == ';')).length ';' = l ∧
    (rstripSemis l).getLast? ≠ some ';' := by
  constructor
  · have h1 : l.reverse.takeWhile (fun c => c == ';') ++ l.reverse.dropWhile (fun c => c == ';') = l.reverse :=
      List.takeWhile_append_dropWhile _ _
    have h2 : l.reverse.takeWhile (fun c => c == ';') =
        List.replicate (l.reverse.takeWhile (fun c => c == ';')).length ';' := by
      apply List.eq_replicate_of_mem
      intro b hb
      have := List.mem_takeWhile_imp hb
      simpa using this
    have h3 := congrArg List.reverse h1
    rw [List.reverse_append, List.reverse_reverse] at h3
    have h4 : (l.reverse.takeWhile (fun c => c == ';')).reverse =
        List.replicate (l.reverse.takeWhile (fun c => c == ';')).length ';' := by
      conv_lhs => rw [h2]
      rw [List.reverse_replicate]
    calc rstripSemis l ++ List.replicate (l.reverse.takeWhile (fun c => c == ';')).length ';'
        = (l.reverse.dropWhile (fun c => c == ';')).reverse ++
            (l.reverse.takeWhile (fun c => c == ';')).reverse := by
          rw [rstripSemis, h4]
      _ = l := h3
  · intro hlast
    rw [rstripSemis, List.getLast?_reverse] at hlast
    have := head_dropWhile_false (fun c => c == ';') l.reverse ';' hlast
    simp at this

theorem exists_iff_countId_pos (e : String) (f : FileState) :
    dialogue_exists_in_dataset e f = true ↔ 0 < countId e f := by
  cases f with
  | missing => simp [dialogue_exists_in_dataset, countId]
  | invalidJson => simp [dialogue_exists_in_dataset, countId]
  | noDatasetKey => simp [dialogue_exists_in_dataset, countId]
  | withDataset entries =>
    simp only [dialogue_exists_in_dataset, countId, List.any_eq_true,
      List.length_pos, ← List.filter_eq_nil_iff]
    constructor
    · rintro ⟨en, hen, heq⟩ hnil
      have : en ∈ entries.filter (fun en => en.eid == some e) :=
        List.mem_filter.mpr ⟨hen, heq⟩
      rw [hnil] at this
      exact List.not_mem_nil en this
    · intro h
      rcases List.exists_mem_of_ne_nil _ h with ⟨en, hen⟩
      · exact ⟨en, (List.mem_filter.mp hen).1, (List.mem_filter.mp hen).2⟩

theorem exists_save_mono (e : String) (d : Experiment) (f : FileState)
    (h : dialogue_exists_in_dataset e f = true) :
    dialogue_exists_in_dataset e (save_dialogue_to_file d f) = true := by
  cases f with
  | missing => simp [dialogue_exists_in_dataset] at h
  | invalidJson => simp [dialogue_exists_in_dataset] at h
  | noDatasetKey => simp [dialogue_exists_in_dataset] at h
  | withDataset entries =>
    simp only [dialogue_exists_in_dataset, save_dialogue_to_file, List.any_append]
    simp only [dialogue_exists_in_dataset] at h
    rw [h]
    rfl

theorem countId_save (e : String) (d : Experiment) (f : FileState) :
    countId e (save_dialogue_to_file d f) =
      (if f matches .withDataset _ then countId e f else 0) +
        (if d.experiment_id = e then 1 else 0) := by
  have hsingle : ([expEntry d].filter (fun en => en.eid == some e)).length =
      (if d.experiment_id = e then 1 else 0) := by
    by_cases hd : d.experiment_id = e
    · have hbe : (d.experiment_id == e) = true := by simp [hd]
      simp [expEntry, List.filter, hbe, hd]
    · have hbe : (d.experiment_id == e) = false := by simp [hd]
      simp [expEntry, List.filter, hbe, hd]
  cases f with
  | missing => simpa [countId, save_dialogue_to_file] using hsingle
  | invalidJson => simpa [countId, save_dialogue_to_file] using hsingle
  | noDatasetKey => simpa [countId, save_dialogue_to_file] using hsingle
  | withDataset entries =>
    simp only [countId, save_dialogue_to_file, List.filter_append, List.length_append]
    rw [hsingle]
    simp

theorem retryLoop_valid_stops (env : Env) (p : String) (fuel : Nat) (d : Experiment) (fb : String) :
    retryLoop env p fuel d true fb = (.ok (d, true), 0) := by
  cases fuel with
  | zero => rfl
  | succ k => simp [retryLoop]

theorem retryLoop_calls_le (env : Env) (p : String) :
    ∀ (fuel : Nat) (d : Experiment) (v : Bool) (fb : String),
      (retryLoop env p fuel d v fb).2 ≤ fuel := by
  intro fuel
  induction fuel with
  | zero => intro d v fb; simp [retryLoop]
  | succ k ih =>
    intro d v fb
    cases v with
    | true => simp [retryLoop]
    | false =>
      simp only [retryLoop, Bool.false_eq_true, if_false]
      cases hc : check_dialogue_sintax env (generate_dialogue env (p ++ fb)) with
      | error e => simp
      | ok r =>
        obtain ⟨v2, fb2⟩ := r
        dsimp only
        have hle := ih (generate_dialogue env (p ++ fb)) v2 fb2
        rcases hr : retryLoop env p k (generate_dialogue env (p ++ fb)) v2 fb2 with ⟨rr, nn⟩
        rw [hr] at hle
        simp at hle ⊢
        omega

theorem retryLoop_result_ok (env : Env) (p : String) :
    ∀ (fuel : Nat) (d : Experiment) (v : Bool) (fb : String) (dF : Experiment) (vF : Bool),
      (retryLoop env p fuel d v fb).1 = .ok (dF, vF) →
      (dF = d ∧ vF = v) ∨ (∃ s, dF = generate_dialogue env s) := by
  intro fuel
  induction fuel with
  | zero =>
    intro d v fb dF vF h
    simp [retryLoop] at h
    left
    constructor
    · rw [h.1]
    · rw [h.2]
  | succ k ih =>
    intro d v fb dF vF h
    cases v with
    | true =>
      simp [retryLoop] at h
      left
      constructor
      · rw [h.1]
      · rw [h.2]
    | false =>
      simp only [retryLoop, Bool.false_eq_true, if_false] at h
      cases hc : check_dialogue_sintax env (generate_dialogue env (p ++ fb)) with
      | error e => rw [hc] at h; simp at h
      | ok r =>
        obtain ⟨v2, fb2⟩ := r
        rw [hc] at h
        dsimp only at h
        rcases hr : retryLoop env p k (generate_dialogue env (p ++ fb)) v2 fb2 with ⟨rr, nn⟩
        rw [hr] at h
        simp at h
        have hrec := ih (generate_dialogue env (p ++ fb)) v2 fb2 dF vF
        rw [hr] at hrec
        simp [h] at hrec
        rcases hrec with ⟨hd, _⟩ | ⟨s, hs⟩
        · exact .inr ⟨p ++ fb, hd⟩
        · exact .inr ⟨s, hs⟩

theorem processCombination_inv (env : Env) (fs : FileState) (i : Nat) (jc : Combination)
    (od : Option (Experiment × Bool)) (fs2 : FileState) (n : Nat)
    (h : processCombination env fs i jc = (.ok (od, fs2), n)) :
    (od = none ∧ fs2 = fs ∧ n = 0 ∧ dialogue_exists_in_dataset (toString (i + 1)) fs = true) ∨
    (∃ d v, od = some (d, v) ∧ dialogue_exists_in_dataset (toString (i + 1)) fs = false ∧
      1 ≤ n ∧ n ≤ 4 ∧ fs2 = (if v then save_dialogue_to_file d fs else fs)) := by
  by_cases hex : dialogue_exists_in_dataset (toString (i + 1)) fs
  · left
    simp only [processCombination, hex, if_true] at h
    simp at h
    exact ⟨h.1.1.symm, h.1.2.symm, h.2.symm, hex⟩
  · right
    simp only [processCombination, hex, Bool.false_eq_true, if_false] at h
    cases hp : create_prompt_from_join_combination_data env i jc with
    | error e => rw [hp] at h; simp at h
    | ok prompt =>
      rw [hp] at h
      dsimp only at h
      cases hc : check_dialogue_sintax env (generate_dialogue env prompt) with
      | error e => rw [hc] at h; simp at h
      | ok r =>
        obtain ⟨v0, fb0⟩ := r
        rw [hc] at h
        dsimp only at h
        rcases hr : retryLoop env prompt 3 (generate_dialogue env prompt) v0 fb0 with ⟨rr, nn⟩
        rw [hr] at h
        cases rr with
        | error e => simp at h
        | ok pair =>
          obtain ⟨dF, vF⟩ := pair
          simp at h
          have hnn : nn ≤ 3 := by
            have := retryLoop_calls_le env prompt 3 (generate_dialogue env prompt) v0 fb0
            rw [hr] at this
            simpa using this
          refine ⟨dF, vF, ?_, Bool.of_not_eq_true hex, ?_, ?_, ?_⟩
          · rw [← h.1.1]
          · omega
          · omega
          · rw [← h.1.2]

theorem processCombination_calls_le (env : Env) (fs : FileState) (i : Nat) (jc : Combination) :
    (processCombination env fs i jc).2 ≤ 4 := by
  by_cases hex : dialogue_exists_in_dataset (toString (i + 1)) fs
  · simp [processCombination, hex]
  · simp only [processCombination, hex, Bool.false_eq_true, if_false]
    cases hp : create_prompt_from_join_combination_data env i jc with
    | error e => simp
    | ok prompt =>
      dsimp only
      cases hc : check_dialogue_sintax env (generate_dialogue env prompt) with
      | error e => simp
      | ok r =>
        obtain ⟨v0, fb0⟩ := r
        dsimp only
        have hle := retryLoop_calls_le env prompt 3 (generate_dialogue env prompt) v0 fb0
        rcases hr : retryLoop env prompt 3 (generate_dialogue env prompt) v0 fb0 with ⟨rr, nn⟩
        rw [hr] at hle
        simp at hle
        cases rr with
        | error e => simp; omega
        | ok pair => simp; omega

/-- The per-step contract: the recorded step is exactly what
`processCombination` produced on the recorded pre-state. -/
def StepOk (env : Env) (st : StepTrace) : Prop :=
  processCombination env st.fsBefore st.idx st.combo = (.ok (st.result, st.fsAfter), st.calls)

/-- The trace's file states chain from `fs` to `fsF`. -/
def ChainedFrom (fs fsF : FileState) : List StepTrace → Prop
  | [] => fsF = fs
  | st :: rest => st.fsBefore = fs ∧ ChainedFrom st.fsAfter fsF rest

theorem runAux_spec (env : Env) :
    ∀ (combos : List Combination) (i0 : Nat) (fs : FileState) (ds : List Experiment)
      (fsF : FileState) (tr : List StepTrace),
      runAux env i0 combos fs = .ok (ds, fsF, tr) →
      tr.map (fun st => st.idx) = List.range' i0 combos.length ∧
      ds = tr.filterMap (fun st => st.result.map Prod.fst) ∧
      ChainedFrom fs fsF tr ∧
      ∀ st ∈ tr, StepOk env st := by
  intro combos
  induction combos with
  | nil =>
    intro i0 fs ds fsF tr h
    simp [runAux] at h
    obtain ⟨h1, h2, h3⟩ := h
    subst h1 h2 h3
    exact ⟨rfl, rfl, rfl, by simp⟩
  | cons jc rest ih =>
    intro i0 fs ds fsF tr h
    simp only [runAux] at h
    rcases hp : processCombination env fs i0 jc with ⟨r, n⟩
    rw [hp] at h
    cases r with
    | error e => simp at h
    | ok pair =>
      obtain ⟨od, fs2⟩ := pair
      dsimp only at h
      cases hrest : runAux env (i0 + 1) rest fs2 with
      | error e => rw [hrest] at h; simp at h
      | ok triple =>
        obtain ⟨ds2, fsF2, tr2⟩ := triple
        rw [hrest] at h
        simp at h
        obtain ⟨hds, hfsF, htr⟩ := h
        obtain ⟨m1, m2, m3, m4⟩ := ih (i0 + 1) fs2 ds2 fsF2 tr2 hrest
        subst hds hfsF htr
        refine ⟨?_, ?_, ?_, ?_⟩
        · simp [List.range', m1]
        · cases od with
          | none => simp [appendResult, m2]
          | some pair2 =>
            obtain ⟨d, v⟩ := pair2
            simp [appendResult, m2]
        · exact ⟨rfl, m3⟩
        · intro st hst
          rcases List.mem_cons.mp hst with h1 | h1
          · subst h1
            exact hp
          · exact m4 st h1

theorem step_exists_mono (env : Env) (st : StepTrace) (e : String)
    (hstep : StepOk env st)
    (hex : dialogue_exists_in_dataset e st.fsBefore = true) :
    dialogue_exists_in_dataset e st.fsAfter = true := by
  rcases processCombination_inv env st.fsBefore st.idx st.combo st.result st.fsAfter st.calls hstep with
    ⟨_, hfs, _, _⟩ | ⟨d, v, _, _, _, _, hfs⟩
  · rw [hfs]; exact hex
  · cases v with
    | true => rw [hfs]; simp; exact exists_save_mono e d st.fsBefore hex
    | false => rw [hfs]; simpa using hex

theorem chained_exists_mono (env : Env) (e : String) :
    ∀ (tr : List StepTrace) (fs fsF : FileState),
      ChainedFrom fs fsF tr → (∀ st ∈ tr, StepOk env st) →
      dialogue_exists_in_dataset e fs = true →
      ((∀ st ∈ tr, dialogue_exists_in_dataset e st.fsBefore = true) ∧
        dialogue_exists_in_dataset e fsF = true) := by
  intro tr
  induction tr with
  | nil =>
    intro fs fsF hch hok hex
    exact ⟨by simp, by rw [hch]; exact hex⟩
  | cons st rest ih =>
    intro fs fsF hch hok hex
    obtain ⟨hb, hch2⟩ := hch
    have hstep : StepOk env st := hok st (by simp)
    have hbex : dialogue_exists_in_dataset e st.fsBefore = true := by rw [hb]; exact hex
    have hafter : dialogue_exists_in_dataset e st.fsAfter = true :=
      step_exists_mono env st e hstep hbex
    obtain ⟨ihall, ihF⟩ := ih st.fsAfter fsF hch2 (fun s hs => hok s (List.mem_cons_of_mem st hs)) hafter
    refine ⟨?_, ihF⟩
    intro s hs
    rcases List.mem_cons.mp hs with h1 | h1
    · subst h1; exact hbex
    · exact ihall s h1

theorem step_count (env : Env) (st : StepTrace)
    (hstep : StepOk env st)
    (hid : ∀ d v, st.result = some (d, v) → d.experiment_id = toString (st.idx + 1)) :
    ∀ e, countId e st.fsAfter ≤ max (countId e st.fsBefore) 1 := by
  intro e
  rcases processCombination_inv env st.fsBefore st.idx st.combo st.result st.fsAfter st.calls hstep with
    ⟨_, hfs, _, _⟩ | ⟨d, v, hres, hnex, _, _, hfs⟩
  · rw [hfs]; omega
  · cases v with
    | false =>
      rw [hfs]; simp
    | true =>
      have hdid : d.experiment_id = toString (st.idx + 1) := hid d true hres
      have hzero : countId (toString (st.idx + 1)) st.fsBefore = 0 := by
        by_contra hc
        have hx : dialogue_exists_in_dataset (toString (st.idx + 1)) st.fsBefore = true :=
          (exists_iff_countId_pos _ _).mpr (Nat.pos_of_ne_zero hc)
        rw [hx] at hnex
        exact Bool.noConfusion hnex
      have hfs2 : st.fsAfter = save_dialogue_to_file d st.fsBefore := by
        rw [hfs]; simp
      rw [hfs2, countId_save]
      by_cases he : d.experiment_id = e
      · rw [he] at hdid
        have hce : countId e st.fsBefore = 0 := by rw [hdid]; exact hzero
        rw [hce]
        simp [he]
      · simp only [he, if_false]
        cases st.fsBefore with
        | missing => simp
        | invalidJson => simp
        | noDatasetKey => simp
        | withDataset entries => simp

theorem chained_count (env : Env) (e : String) :
    ∀ (tr : List StepTrace) (fs fsF : FileState),
      ChainedFrom fs fsF tr → (∀ st ∈ tr, StepOk env st) →
      (∀ st ∈ tr, ∀ d v, st.result = some (d, v) → d.experiment_id = toString (st.idx + 1)) →
      countId e fsF ≤ max (countId e fs) 1 := by
  intro tr
  induction tr with
  | nil =>
    intro fs fsF hch hok hid
    rw [hch]
    omega
  | cons st rest ih =>
    intro fs fsF hch hok hid
    obtain ⟨hb, hch2⟩ := hch
    have hstep : StepOk env st := hok st (by simp)
    have h1 : countId e st.fsAfter ≤ max (countId e st.fsBefore) 1 :=
      step_count env st hstep (hid st (by simp)) e
    have h2 : countId e fsF ≤ max (countId e st.fsAfter) 1 :=
      ih st.fsAfter fsF hch2 (fun s hs => hok s (List.mem_cons_of_mem st hs))
        (fun s hs => hid s (List.mem_cons_of_mem st hs))
    rw [hb] at h1
    omega

/-! ## Concrete demonstration data for witnesses and counterexamples -/

def demoRender : String → String → Nat → String → String → String :=
  fun eid _ _ _ _ => eid

def demoConfigJson : JsonLoad :=
  .obj [("DB_HOST", "h"), ("DB_PORT", "1521"), ("DB_USER_NAME", "u"),
    ("DB_PASS", "w"), ("SERVICE_NAME", "s")]

def demoCfg : DbConfig := ⟨"h", "1521", "u", "w", "s"⟩

def exp1 : Experiment := ⟨"1", 0, []⟩

def exp42 : Experiment := ⟨"42", 0, []⟩

def badInteraction : Interaction := ⟨"1", "User", "q", "i", ⟨["t"], "SELECT"⟩⟩

def expBad : Experiment := ⟨"1", 1, [badInteraction]⟩

/-- Well-behaved external world: model always returns `exp1`, database
always accepts. -/
def okEnv : Env :=
  ⟨fun _ => exp1, fun _ => "X", fun _ => none, fun _ => some [],
    .wellFormed demoRender, demoConfigJson, fun _ _ _ => .ok (), fun _ => .ok ()⟩

/-- Model returns an experiment whose experiment_id is NOT the 1-based
index of its combination. -/
def cexEnv : Env :=
  ⟨fun _ => exp42, fun _ => "X", fun _ => none, fun _ => some [],
    .wellFormed demoRender, demoConfigJson, fun _ _ _ => .ok (), fun _ => .ok ()⟩

/-- Database rejects every statement: validation never succeeds. -/
def envInvalid : Env :=
  ⟨fun _ => expBad, fun _ => "X", fun _ => none, fun _ => some [],
    .wellFormed demoRender, demoConfigJson, fun _ _ _ => .ok (),
    fun _ => .error "ORA-00942: table or view does not exist"⟩

/-- Database rejects exactly the statement "BAD". -/
def envOneBad : Env :=
  ⟨fun _ => exp1, fun _ => "X", fun _ => none, fun _ => some [],
    .wellFormed demoRender, demoConfigJson, fun _ _ _ => .ok (),
    fun s => if s == "BAD" then .error "oops" else .ok ()⟩

/-- Connecting to the database fails. -/
def envNoConn : Env :=
  ⟨fun _ => exp1, fun _ => "X", fun _ => none, fun _ => some [],
    .wellFormed demoRender, demoConfigJson, fun _ _ _ => .error "down", fun _ => .ok ()⟩

/-- The connection-settings file is missing. -/
def envNoConfig : Env :=
  ⟨fun _ => exp1, fun _ => "X", fun _ => none, fun _ => some [],
    .wellFormed demoRender, .openError "no file", fun _ _ _ => .ok (), fun _ => .ok ()⟩

/-- The column-values lookup has no entry for any table (the DDL lookup
does). -/
def envMissingCols : Env :=
  ⟨fun _ => exp1, fun _ => "X", fun _ => some "CREATE TABLE a", fun _ => none,
    .wellFormed demoRender, demoConfigJson, fun _ _ _ => .ok (), fun _ => .ok ()⟩

/-- The DDL lookup has no entry for any table (the column-values lookup
does). -/
def envMissingDdl : Env :=
  ⟨fun _ => exp1, fun _ => "X", fun _ => none, fun _ => some [("c", .single (.raw "1"))],
    .wellFormed demoRender, demoConfigJson, fun _ _ _ => .ok (), fun _ => .ok ()⟩

def demoCombo : Combination := ⟨"j", []⟩

def demoCombos : List Combination := [demoCombo]

def cexFs0 : FileState := .withDataset [⟨some "99", none⟩]

def cexFs1 : FileState := .withDataset [⟨some "99", none⟩, ⟨some "42", some exp42⟩]

def cexFs2 : FileState :=
  .withDataset [⟨some "99", none⟩, ⟨some "42", some exp42⟩, ⟨some "42", some exp42⟩]

/-! ## Claim theorems -/

/-- C5 counterexample: the validator's SQL preprocessing is
`strip().rstrip(';')`, which removes EVERY trailing semicolon; on
"SELECT 1;;" the code produces "SELECT 1", not the "SELECT 1;" that
removing exactly one terminator (as the claim states) would produce. -/
theorem C5_counterexample :
    stripSql "SELECT 1;;" = "SELECT 1" ∧
    stripSqlOneTerminator "SELECT 1;;" = "SELECT 1;" ∧
    stripSql "SELECT 1;;" ≠ stripSqlOneTerminator "SELECT 1;;" := by
  refine ⟨by decide, by decide, by decide⟩

/-- C5 (amended): the SQL string the validator executes is golden_sql with
surrounding whitespace stripped and ALL trailing ';' characters removed:
`stripSql s` plus the removed run of semicolons reassembles the stripped
string, and the result has no trailing ';' left. -/
theorem C5_strip_removes_all_trailing_semicolons (s : String) :
    (stripSql s).toList ++
        List.replicate ((pyStrip s.toList).reverse.takeWhile (fun c => c == ';')).length ';' =
      pyStrip s.toList ∧
    (stripSql s).toList.getLast? ≠ some ';' := by
  have h := rstripSemis_spec (pyStrip s.toList)
  exact ⟨h.1, h.2⟩

/-- C6: after `save_dialogue_to_file` appends an experiment,
`dialogue_exists_in_dataset` for that experiment_id on the resulting file
returns true, whatever the prior file state was. -/
theorem C6_checkpoint_durability (e : Experiment) (f : FileState) :
    dialogue_exists_in_dataset e.experiment_id (save_dialogue_to_file e f) = true := by
  cases f <;> simp [dialogue_exists_in_dataset, save_dialogue_to_file, expEntry]

/-- C8: contrary to the claim, a table name absent from the example-values
lookup is NOT handled by the fallback placeholder: the string default
passed to `.get` is then iterated with `.items()`, raising AttributeError
even though the template is well-formed.  (Only the DDL lookup's fallback
works, third conjunct.) -/
theorem C8_missing_column_values_raises :
    create_prompt_from_join_combination_data envMissingCols 0 ⟨"a JOIN b", ["a"]⟩ =
      Except.error (PyExn.attributeError "str object has no attribute items") ∧
    envMissingCols.template = Template.wellFormed demoRender ∧
    create_prompt_from_join_combination_data envMissingDdl 0 ⟨"a JOIN b", ["a"]⟩ =
      Except.ok "1" := by
  refine ⟨by decide, rfl, by decide⟩

/-- C2: with a loadable config and a working connection,
`check_dialogue_sintax` returns `(true, "")` exactly when no per-statement
errors were collected; otherwise it returns `(false, feedback)` where
feedback is the fixed preamble, the newline-joined error lines and the
fixed trailer, and is non-empty; and every failing interaction contributes
its "Interaction <id>, SQL: '...' - Error: ..." line to the collected
list, regardless of other failures (no early abort). -/
theorem C2_validator_feedback (env : Env) (d : Experiment) (cfg : DbConfig)
    (hcfg : loadDbConfig env.configJson = Except.ok cfg)
    (hconn : env.connect cfg.db_user cfg.db_pass (dsnOf cfg) = Except.ok ()) :
    (check_dialogue_sintax env d = Except.ok (true, "") ↔ sqlErrors env d = []) ∧
    (sqlErrors env d ≠ [] →
      check_dialogue_sintax env d =
        Except.ok (false,
          feedbackPreamble ++ String.intercalate "\n" (sqlErrors env d) ++ feedbackTrailer) ∧
      feedbackPreamble ++ String.intercalate "\n" (sqlErrors env d) ++ feedbackTrailer ≠ "") ∧
    (∀ it ∈ d.interactions, ∀ msg,
      env.exec (stripSql it.ground_truths.golden_sql) = Except.error msg →
      ("Interaction " ++ it.interaction_id ++ ", SQL: \x27" ++
        stripSql it.ground_truths.golden_sql ++ "\x27 - Error: " ++ msg) ∈ sqlErrors env d) := by
  refine ⟨?_, ?_, ?_⟩
  · by_cases herr : sqlErrors env d = []
    · simp [check_dialogue_sintax, hcfg, hconn, herr]
    · simp [check_dialogue_sintax, hcfg, hconn, herr, List.isEmpty_iff]
  · intro herr
    constructor
    · simp [check_dialogue_sintax, hcfg, hconn, List.isEmpty_iff, herr]
    · intro hemp
      have hl := congrArg String.length hemp
      rw [String.length_append, String.length_append] at hl
      have hp : 0 < feedbackPreamble.length := by decide
      simp at hl
      omega
  · intro it hit msg hmsg
    exact List.mem_filterMap.mpr ⟨it, hit, by simp [interactionError, hmsg]⟩

/-- C7: if opening the database connection fails, `check_dialogue_sintax`
returns `(false, "Error connecting to the database: " ++ cause)`, and no
per-statement results are collected: the result is the same for every
dialogue and for every per-statement execution behavior. -/
theorem C7_connection_failure (env : Env) (d : Experiment) (cfg : DbConfig) (msg : String)
    (hcfg : loadDbConfig env.configJson = Except.ok cfg)
    (hconn : env.connect cfg.db_user cfg.db_pass (dsnOf cfg) = Except.error msg) :
    check_dialogue_sintax env d =
      Except.ok (false, "Error connecting to the database: " ++ msg) ∧
    (∀ d2 : Experiment, check_dialogue_sintax env d2 = check_dialogue_sintax env d) ∧
    (∀ ex2 : String → Except String Unit,
      check_dialogue_sintax
        ⟨env.gen, env.dumps, env.table_ddls, env.table_column_values, env.template,
          env.configJson, env.connect, ex2⟩ d =
        check_dialogue_sintax env d) := by
  refine ⟨?_, ?_, ?_⟩
  · simp [check_dialogue_sintax, hcfg, hconn]
  · intro d2
    simp [check_dialogue_sintax, hcfg, hconn]
  · intro ex2
    simp [check_dialogue_sintax, hcfg, hconn]

/-- C9: a missing config file, invalid JSON, or any absent key among
DB_HOST, DB_PORT, DB_USER_NAME, DB_PASS, SERVICE_NAME makes
`check_dialogue_sintax` raise (return `Except.error`) instead of returning
a `(false, feedback)` validation result: the config load happens before
the `try` block. -/
theorem C9_config_load_raises (env : Env) (d : Experiment) :
    (∀ m, env.configJson = JsonLoad.openError m →
      check_dialogue_sintax env d = Except.error (PyExn.ioError m)) ∧
    (∀ m, env.configJson = JsonLoad.decodeError m →
      check_dialogue_sintax env d = Except.error (PyExn.jsonDecodeError m)) ∧
    (∀ es, env.configJson = JsonLoad.obj es →
      (es.lookup "DB_HOST" = none ∨ es.lookup "DB_PORT" = none ∨
        es.lookup "DB_USER_NAME" = none ∨ es.lookup "DB_PASS" = none ∨
        es.lookup "SERVICE_NAME" = none) →
      ∃ k, check_dialogue_sintax env d = Except.error (PyExn.keyError k)) := by
  refine ⟨?_, ?_, ?_⟩
  · intro m hm
    simp [check_dialogue_sintax, loadDbConfig, hm]
  · intro m hm
    simp [check_dialogue_sintax, loadDbConfig, hm]
  · intro es hes hmiss
    rcases h1 : es.lookup "DB_HOST" with _ | v1
    · exact ⟨"DB_HOST", by simp [check_dialogue_sintax, loadDbConfig, hes, h1]⟩
    rcases h2 : es.lookup "DB_PORT" with _ | v2
    · exact ⟨"DB_PORT", by simp [check_dialogue_sintax, loadDbConfig, hes, h1, h2]⟩
    rcases h3 : es.lookup "DB_USER_NAME" with _ | v3
    · exact ⟨"DB_USER_NAME", by simp [check_dialogue_sintax, loadDbConfig, hes, h1, h2, h3]⟩
    rcases h4 : es.lookup "DB_PASS" with _ | v4
    · exact ⟨"DB_PASS", by simp [check_dialogue_sintax, loadDbConfig, hes, h1, h2, h3, h4]⟩
    rcases h5 : es.lookup "SERVICE_NAME" with _ | v5
    · exact ⟨"SERVICE_NAME",
        by simp [check_dialogue_sintax, loadDbConfig, hes, h1, h2, h3, h4, h5]⟩
    simp [h1, h2, h3, h4, h5] at hmiss

theorem stepOk_skip_iff (env : Env) (st : StepTrace) (h : StepOk env st) :
    (st.result = none ↔
      dialogue_exists_in_dataset (toString (st.idx + 1)) st.fsBefore = true) ∧
    (st.result = none → st.calls = 0 ∧ st.fsAfter = st.fsBefore) := by
  rcases processCombination_inv env st.fsBefore st.idx st.combo st.result st.fsAfter st.calls h with
    ⟨hn, hfs, hc, hex⟩ | ⟨d, v, hres, hnex, _, _, _⟩
  · exact ⟨⟨fun _ => hex, fun _ => hn⟩, fun _ => ⟨hc, hfs⟩⟩
  · constructor
    · constructor
      · intro hnone; rw [hnone] at hres; exact Option.noConfusion hres
      · intro hex; rw [hex] at hnex; exact Bool.noConfusion hnex
    · intro hnone; rw [hnone] at hres; exact Option.noConfusion hres

theorem length_filterMap_eq_countP {α β : Type} (f : α → Option β) (l : List α) :
    (l.filterMap f).length = l.countP (fun a => (f a).isSome) := by
  induction l with
  | nil => rfl
  | cons x xs ih =>
    cases h : f x <;> simp [List.filterMap_cons, h, List.countP_cons, ih]

/-- C3: for a combination that is not skipped, the loop makes at most 4
model invocations (1 initial + at most 3 retries); with a valid
validation result the retry loop makes no further invocation, and the
retry loop itself never makes more than 3. -/
theorem C3_model_call_bound (env : Env) (fs : FileState) (i : Nat) (jc : Combination)
    (p fb : String) (fuel : Nat) (d : Experiment) (v : Bool)
    (_notSkipped : dialogue_exists_in_dataset (toString (i + 1)) fs = false) :
    (processCombination env fs i jc).2 ≤ 4 ∧
    (retryLoop env p fuel d true fb).2 = 0 ∧
    (retryLoop env p 3 d v fb).2 ≤ 3 := by
  refine ⟨processCombination_calls_le env fs i jc, ?_, retryLoop_calls_le env p 3 d v fb⟩
  rw [retryLoop_valid_stops]

/-- C4: every non-skipped combination's final candidate experiment is in
the returned in-memory list whatever its final validity; the checkpoint
file is updated by appending it if and only if the final validation
returned valid, so a still-invalid experiment is never persisted. -/
theorem C4_append_vs_persist (env : Env) (i0 : Nat) (combos : List Combination)
    (fs : FileState) (ds : List Experiment) (fsF : FileState) (tr : List StepTrace)
    (h : runAux env i0 combos fs = Except.ok (ds, fsF, tr)) :
    ∀ st ∈ tr, ∀ d v, st.result = some (d, v) →
      d ∈ ds ∧
      st.fsAfter = (if v then save_dialogue_to_file d st.fsBefore else st.fsBefore) ∧
      (v = false → st.fsAfter = st.fsBefore) := by
  obtain ⟨_, hds, _, hok⟩ := runAux_spec env combos i0 fs ds fsF tr h
  intro st hst d v hres
  have hstep := hok st hst
  have hfseq : st.fsAfter = (if v then save_dialogue_to_file d st.fsBefore else st.fsBefore) := by
    rcases processCombination_inv env st.fsBefore st.idx st.combo st.result st.fsAfter st.calls
        hstep with ⟨hn, _, _, _⟩ | ⟨d2, v2, hres2, _, _, _, hfs⟩
    · rw [hres] at hn; exact Option.noConfusion hn
    · rw [hres] at hres2
      have hd2 : d2 = d ∧ v2 = v := by
        have := hres2.symm
        simp at this
        exact ⟨this.1, this.2⟩
      rw [hd2.1, hd2.2] at hfs
      exact hfs
  refine ⟨?_, hfseq, ?_⟩
  · rw [hds]
    exact List.mem_filterMap.mpr ⟨st, hst, by rw [hres]; rfl⟩
  · intro hv
    rw [hfseq, hv]
    simp

/-- C10: the returned list has exactly one experiment per non-skipped
combination, in input order (it is the in-order projection of the trace);
the loop visits the indices in input order; the list's length is the
number of combinations whose id was not found in the checkpoint at
processing time; and a combination contributes nothing exactly when its
id was found. -/
theorem C10_returned_list (env : Env) (combos : List Combination) (fs : FileState)
    (ds : List Experiment) (fsF : FileState) (tr : List StepTrace)
    (h : runAux env 0 combos fs = Except.ok (ds, fsF, tr)) :
    ds = tr.filterMap (fun st => st.result.map Prod.fst) ∧
    tr.map (fun st => st.idx) = List.range combos.length ∧
    ds.length = (tr.filter (fun st =>
      !(dialogue_exists_in_dataset (toString (st.idx + 1)) st.fsBefore))).length ∧
    (∀ st ∈ tr, (st.result = none ↔
      dialogue_exists_in_dataset (toString (st.idx + 1)) st.fsBefore = true)) := by
  obtain ⟨hidx, hds, _, hok⟩ := runAux_spec env combos 0 fs ds fsF tr h
  have hiff : ∀ st ∈ tr, (st.result = none ↔
      dialogue_exists_in_dataset (toString (st.idx + 1)) st.fsBefore = true) :=
    fun st hst => (stepOk_skip_iff env st (hok st hst)).1
  refine ⟨hds, ?_, ?_, hiff⟩
  · rw [hidx, List.range_eq_range']
  · rw [hds, length_filterMap_eq_countP, List.countP_eq_length_filter]
    congr 1
    apply List.filter_congr
    intro st hst
    have := hiff st hst
    cases hres : st.result with
    | none =>
      have hex := (this.mp hres)
      simp [hex]
    | some pair =>
      have hnex : dialogue_exists_in_dataset (toString (st.idx + 1)) st.fsBefore ≠ true := by
        intro hex
        have := this.mpr hex
        rw [hres] at this
        exact Option.noConfusion this
      simp [Bool.of_not_eq_true hnex]

/-- C1 counterexample: starting from the same non-empty checkpoint file
and the same combinations, two consecutive complete runs of the loop leave
TWO experiments sharing experiment_id "42" in the checkpoint, because the
skip check looks for str(i+1) = "1" while the model-chosen id "42" is what
gets persisted — refuting the claim that rerunning never raises the count
of experiments sharing one experiment_id above one. -/
theorem C1_counterexample :
    runAux cexEnv 0 demoCombos cexFs0 =
      Except.ok ([exp42], cexFs1, [⟨0, demoCombo, cexFs0, cexFs1, 1, some (exp42, true)⟩]) ∧
    runAux cexEnv 0 demoCombos cexFs1 =
      Except.ok ([exp42], cexFs2, [⟨0, demoCombo, cexFs1, cexFs2, 1, some (exp42, true)⟩]) ∧
    (∀ e, countId e cexFs0 ≤ 1) ∧
    countId "42" cexFs2 = 2 := by
  refine ⟨by decide, by decide, ?_, by decide⟩
  intro e
  by_cases he : e = "99"
  · subst he; decide
  · have hne : ((some "99" : Option String) == some e) = false := by
      simp
      exact fun hh => he hh.symm
    simp [countId, cexFs0, List.filter, hne]

/-- C1 (amended): in every complete run, whatever ids the model chooses,
the combination at index i is skipped, with zero model invocations,
exactly when the checkpoint file at that moment contains an experiment
whose experiment_id equals str(i+1), and a second run performs zero model
invocations for every combination whose id str(i+1) is already in the
checkpoint at the start of that run; the count bound alone carries a
proviso: IF every candidate experiment produced by the model carries
experiment_id = str(index+1) of its combination (which the code does not
enforce), two consecutive runs never raise any experiment_id's experiment
count in the file beyond max(initial count, 1). -/
theorem C1_skip_and_idempotence (env : Env) (combos : List Combination) (fs0 : FileState)
    (ds1 ds2 : List Experiment) (fs1 fs2 : FileState) (tr1 tr2 : List StepTrace)
    (h1 : runAux env 0 combos fs0 = Except.ok (ds1, fs1, tr1))
    (h2 : runAux env 0 combos fs1 = Except.ok (ds2, fs2, tr2)) :
    (∀ st ∈ tr1 ++ tr2,
      (st.result = none ↔
        dialogue_exists_in_dataset (toString (st.idx + 1)) st.fsBefore = true) ∧
      (st.result = none → st.calls = 0)) ∧
    (∀ st ∈ tr2, dialogue_exists_in_dataset (toString (st.idx + 1)) fs1 = true →
      st.calls = 0 ∧ st.result = none) ∧
    ((∀ st ∈ tr1 ++ tr2, ∀ d v, st.result = some (d, v) →
        d.experiment_id = toString (st.idx + 1)) →
      ∀ e, countId e fs2 ≤ max (countId e fs0) 1) := by
  obtain ⟨_, _, hch1, hok1⟩ := runAux_spec env combos 0 fs0 ds1 fs1 tr1 h1
  obtain ⟨_, _, hch2, hok2⟩ := runAux_spec env combos 0 fs1 ds2 fs2 tr2 h2
  have hokBoth : ∀ st ∈ tr1 ++ tr2, StepOk env st := by
    intro st hst
    rcases List.mem_append.mp hst with hmem | hmem
    · exact hok1 st hmem
    · exact hok2 st hmem
  refine ⟨?_, ?_, ?_⟩
  · intro st hst
    have hs := stepOk_skip_iff env st (hokBoth st hst)
    exact ⟨hs.1, fun hn => (hs.2 hn).1⟩
  · intro st hst hex
    have hmono := chained_exists_mono env (toString (st.idx + 1)) tr2 fs1 fs2 hch2 hok2 hex
    have hbex : dialogue_exists_in_dataset (toString (st.idx + 1)) st.fsBefore = true :=
      hmono.1 st hst
    have hs := stepOk_skip_iff env st (hok2 st hst)
    have hnone : st.result = none := hs.1.mpr hbex
    exact ⟨(hs.2 hnone).1, hnone⟩
  · intro hIds e
    have hc1 : countId e fs1 ≤ max (countId e fs0) 1 :=
      chained_count env e tr1 fs0 fs1 hch1 hok1
        (fun st hst => hIds st (List.mem_append.mpr (.inl hst)))
    have hc2 : countId e fs2 ≤ max (countId e fs1) 1 :=
      chained_count env e tr2 fs1 fs2 hch2 hok2
        (fun st hst => hIds st (List.mem_append.mpr (.inr hst)))
    omega

/-! ## Witnesses -/

def okFs1 : FileState := .withDataset [⟨some "99", none⟩, ⟨some "1", some exp1⟩]

def okTr1 : List StepTrace := [⟨0, demoCombo, cexFs0, okFs1, 1, some (exp1, true)⟩]

def okTr2 : List StepTrace := [⟨0, demoCombo, okFs1, okFs1, 0, none⟩]

def goodIt : Interaction := ⟨"1", "User", "q", "i", ⟨["t"], "SELECT 1"⟩⟩

def badIt : Interaction := ⟨"2", "User", "q", "i", ⟨["t"], "  BAD;; "⟩⟩

def expTwo : Experiment := ⟨"7", 2, [goodIt, badIt]⟩

def invTr : List StepTrace :=
  [⟨0, demoCombo, .missing, .missing, 4, some (expBad, false)⟩]

/-- C1 witness: a concrete well-behaved double run in which the first run
generates and persists, the second run skips with zero model calls, and no
id's count exceeds one. -/
theorem C1_witness :
    runAux okEnv 0 demoCombos cexFs0 = Except.ok ([exp1], okFs1, okTr1) ∧
    runAux okEnv 0 demoCombos okFs1 = Except.ok ([], okFs1, okTr2) ∧
    ((∀ st ∈ okTr1 ++ okTr2,
      (st.result = none ↔
        dialogue_exists_in_dataset (toString (st.idx + 1)) st.fsBefore = true) ∧
      (st.result = none → st.calls = 0)) ∧
    (∀ st ∈ okTr2, dialogue_exists_in_dataset (toString (st.idx + 1)) okFs1 = true →
      st.calls = 0 ∧ st.result = none) ∧
    ((∀ st ∈ okTr1 ++ okTr2, ∀ d v, st.result = some (d, v) →
        d.experiment_id = toString (st.idx + 1)) →
      ∀ e, countId e okFs1 ≤ max (countId e cexFs0) 1)) :=
  ⟨by decide, by decide,
    C1_skip_and_idempotence okEnv demoCombos cexFs0 [exp1] [] okFs1 okFs1 okTr1 okTr2
      (by decide) (by decide)⟩

/-- C2 witness: a dialogue with one passing and one failing statement. -/
theorem C2_witness :
    loadDbConfig envOneBad.configJson = Except.ok demoCfg ∧
    envOneBad.connect demoCfg.db_user demoCfg.db_pass (dsnOf demoCfg) = Except.ok () ∧
    ((check_dialogue_sintax envOneBad expTwo = Except.ok (true, "") ↔
      sqlErrors envOneBad expTwo = []) ∧
    (sqlErrors envOneBad expTwo ≠ [] →
      check_dialogue_sintax envOneBad expTwo =
        Except.ok (false,
          feedbackPreamble ++ String.intercalate "\n" (sqlErrors envOneBad expTwo) ++
            feedbackTrailer) ∧
      feedbackPreamble ++ String.intercalate "\n" (sqlErrors envOneBad expTwo) ++
        feedbackTrailer ≠ "") ∧
    (∀ it ∈ expTwo.interactions, ∀ msg,
      envOneBad.exec (stripSql it.ground_truths.golden_sql) = Except.error msg →
      ("Interaction " ++ it.interaction_id ++ ", SQL: \x27" ++
        stripSql it.ground_truths.golden_sql ++ "\x27 - Error: " ++ msg) ∈
        sqlErrors envOneBad expTwo)) :=
  ⟨by decide, by decide, C2_validator_feedback envOneBad expTwo demoCfg (by decide) (by decide)⟩

/-- C3 witness: a combination absent from a missing checkpoint file, with
an always-failing database, performs exactly 4 model calls (bounded by 4). -/
theorem C3_witness :
    dialogue_exists_in_dataset (toString (0 + 1)) FileState.missing = false ∧
    ((processCombination envInvalid FileState.missing 0 demoCombo).2 ≤ 4 ∧
    (retryLoop envInvalid "P" 2 exp1 true "F").2 = 0 ∧
    (retryLoop envInvalid "P" 3 exp1 false "F").2 ≤ 3) :=
  ⟨by decide,
    C3_model_call_bound envInvalid FileState.missing 0 demoCombo "P" "F" 2 exp1 false
      (by decide)⟩

/-- C4 witness: a run whose single combination stays invalid after all
retries; its experiment is in the returned list but the file is untouched. -/
theorem C4_witness :
    runAux envInvalid 0 demoCombos FileState.missing =
      Except.ok ([expBad], FileState.missing, invTr) ∧
    (∀ st ∈ invTr, ∀ d v, st.result = some (d, v) →
      d ∈ [expBad] ∧
      st.fsAfter = (if v then save_dialogue_to_file d st.fsBefore else st.fsBefore) ∧
      (v = false → st.fsAfter = st.fsBefore)) :=
  ⟨by decide,
    C4_append_vs_persist envInvalid 0 demoCombos FileState.missing [expBad]
      FileState.missing invTr (by decide)⟩

/-- C7 witness: a concrete refused connection. -/
theorem C7_witness :
    loadDbConfig envNoConn.configJson = Except.ok demoCfg ∧
    envNoConn.connect demoCfg.db_user demoCfg.db_pass (dsnOf demoCfg) =
      Except.error "down" ∧
    (check_dialogue_sintax envNoConn exp1 =
      Except.ok (false, "Error connecting to the database: " ++ "down") ∧
    (∀ d2 : Experiment, check_dialogue_sintax envNoConn d2 = check_dialogue_sintax envNoConn exp1) ∧
    (∀ ex2 : String → Except String Unit,
      check_dialogue_sintax
        ⟨envNoConn.gen, envNoConn.dumps, envNoConn.table_ddls, envNoConn.table_column_values,
          envNoConn.template, envNoConn.configJson, envNoConn.connect, ex2⟩ exp1 =
        check_dialogue_sintax envNoConn exp1)) :=
  ⟨by decide, by decide,
    C7_connection_failure envNoConn exp1 demoCfg "down" (by decide) (by decide)⟩

/-- C9 witness: a missing config file makes the validator raise. -/
theorem C9_witness :
    envNoConfig.configJson = JsonLoad.openError "no file" ∧
    check_dialogue_sintax envNoConfig exp1 = Except.error (PyExn.ioError "no file") :=
  ⟨rfl, (C9_config_load_raises envNoConfig exp1).1 "no file" rfl⟩

/-- C10 witness: a concrete run returning one experiment for the one
non-skipped combination. -/
theorem C10_witness :
    runAux okEnv 0 demoCombos cexFs0 = Except.ok ([exp1], okFs1, okTr1) ∧
    (([exp1] : List Experiment) = okTr1.filterMap (fun st => st.result.map Prod.fst) ∧
    okTr1.map (fun st => st.idx) = List.range demoCombos.length ∧
    ([exp1] : List Experiment).length = (okTr1.filter (fun st =>
      !(dialogue_exists_in_dataset (toString (st.idx + 1)) st.fsBefore))).length ∧
    (∀ st ∈ okTr1, (st.result = none ↔
      dialogue_exists_in_dataset (toString (st.idx + 1)) st.fsBefore = true))) :=
  ⟨by decide, C10_returned_list okEnv demoCombos cexFs0 [exp1] okFs1 okTr1 (by decide)⟩
